import Mathlib

/-!
Verification of the Agent Runtime against its natural-language specification.

The definitions below are a shallow embedding of the runtime's two core
units:

* the streaming response pipeline of `agent_api/api/routes/chat.py`
  (`send_message_and_get_response`): fragment consumption, the growing
  response accumulator, partial broadcasts, the empty-response fallback,
  and the error path that persists a terminal message;
* the agent manager of `agent_api/core/agent_manager.py`: the agent cache
  (`add_initialized_agent`, `shutdown_specific_agent`,
  `shutdown_all_agents`), the bounded retry loop around capability
  discovery, the credential-injecting tool wrappers, and the allow-list
  filtering in `create_dynamic_agent_instance`.

Python dictionaries are modelled as association lists with unique keys
(`Dict`), message text as `List Char` (`Text`), and fallible external
calls (tool fetches, gateway-client closes, bot registration) as explicit
environment functions returning `Option`.
-/

namespace ViralAI

/-- Message text, modelled as a list of characters. -/
abbrev Text := List Char

/-- The character list of a string literal. -/
def strT (s : String) : Text := s.data

/-! ### Python dictionaries as association lists -/

/-- A Python `dict` with `String` keys: an association list whose keys are
kept unique by the operations below. -/
abbrev Dict (α : Type) := List (String × α)

/-- `d[k] = v`: replace the value at an existing key in place, otherwise
append the new binding (Python dict assignment). -/
def dictSet {α : Type} (d : Dict α) (k : String) (v : α) : Dict α :=
  match d with
  | [] => [(k, v)]
  | (k', v') :: t => if k' = k then (k, v) :: t else (k', v') :: dictSet t k v

/-- `d.get(k)`: the value at `k`, if present. -/
def dictGet {α : Type} (d : Dict α) (k : String) : Option α :=
  match d with
  | [] => none
  | (k', v) :: t => if k' = k then some v else dictGet t k

/-- `d.pop(k, None)`: the value removed at `k` (if any) with the remaining
dictionary. -/
def dictPop {α : Type} (d : Dict α) (k : String) : Option α × Dict α :=
  match d with
  | [] => (none, [])
  | (k', v) :: t =>
    if k' = k then (some v, t)
    else
      let r := dictPop t k
      (r.1, (k', v) :: r.2)

theorem dictGet_dictSet_self {α : Type} (d : Dict α) (k : String) (v : α) :
    dictGet (dictSet d k v) k = some v := by
  induction d with
  | nil => simp [dictSet, dictGet]
  | cons p t ih =>
    by_cases h : p.1 = k
    · simp [dictSet, dictGet, h]
    · simp only [dictSet, dictGet]
      rw [if_neg h, dictGet, if_neg h]
      exact ih

theorem dictGet_dictSet_ne {α : Type} (d : Dict α) (k k' : String) (v : α)
    (h : k' ≠ k) : dictGet (dictSet d k v) k' = dictGet d k' := by
  have h' : k ≠ k' := Ne.symm h
  induction d with
  | nil => simp [dictSet, dictGet, h']
  | cons p t ih =>
    by_cases hp : p.1 = k
    · subst hp
      simp [dictSet, dictGet, h']
    · simp only [dictSet]
      rw [if_neg hp]
      by_cases hp' : p.1 = k'
      · simp [dictGet, hp']
      · simp only [dictGet]
        rw [if_neg hp', if_neg hp']
        exact ih

theorem dictPop_of_get_none {α : Type} (d : Dict α) (k : String)
    (h : dictGet d k = none) : dictPop d k = (none, d) := by
  induction d with
  | nil => simp [dictPop]
  | cons p t ih =>
    by_cases hp : p.1 = k
    · simp [dictGet, hp] at h
    · simp only [dictGet] at h
      rw [if_neg hp] at h
      simp only [dictPop]
      rw [if_neg hp, ih h]

/-! ### The streaming response pipeline (chat.py, `send_message_and_get_response`)

One raw chunk yielded by `agent_executor.astream` is reduced to the three
observations the loop makes of it: the text `extract_ai_content` pulls out
of the chunk itself, whether the chunk carries a truthy `"messages"` list,
and the text `extract_ai_content` pulls out of a `chunk["output"]` value
(absent key modelled as `none`). -/

structure StreamChunk where
  content : Option Text
  hasMessages : Bool
  output : Option Text
deriving DecidableEq, Repr

/-- One `llm_stream_chunk` broadcast: the consistent streaming message id,
the full accumulated text, and the partial flag. -/
structure Broadcast where
  msgId : Nat
  text : Text
  isPartial : Bool
deriving DecidableEq, Repr

/-- Lines 162–184: if the chunk's extracted content is truthy, append it to
the accumulator and broadcast the full accumulated text as a partial
message under the turn's single id. -/
def contentStep (msgId : Nat) (st : Text × List Broadcast)
    (content : Option Text) : Text × List Broadcast :=
  match content with
  | some s =>
    if s.isEmpty then st
    else (st.1 ++ s, st.2 ++ [⟨msgId, st.1 ++ s, true⟩])
  | none => st

/-- Lines 187–197: when the chunk has no truthy `"messages"` list but has an
`"output"` value with truthy content and nothing was streamed yet, that
output seeds the accumulator (with no broadcast). -/
def outputStep (st : Text × List Broadcast) (hasMessages : Bool)
    (output : Option Text) : Text × List Broadcast :=
  if hasMessages then st
  else
    match output with
    | some s => if !s.isEmpty && st.1.isEmpty then (s, st.2) else st
    | none => st

/-- The body of the `async for chunk in agent_executor.astream(...)` loop. -/
def processChunk (msgId : Nat) (st : Text × List Broadcast)
    (c : StreamChunk) : Text × List Broadcast :=
  outputStep (contentStep msgId st c.content) c.hasMessages c.output

/-- The whole streaming loop: the accumulator starts empty and each chunk is
processed in order; the result is the final accumulated text and the list
of partial broadcasts in the order they were sent. -/
def runStream (msgId : Nat) (chunks : List StreamChunk) :
    Text × List Broadcast :=
  chunks.foldl (processChunk msgId) ([], [])

/-- Line 205: the fixed phrase substituted for an empty accumulator. -/
def fallbackText : Text := strT "No response generated by the agent."

/-- Lines 203–205: the committed text is the accumulated text, or the
fallback phrase when nothing was accumulated. -/
def finalContent (acc : Text) : Text :=
  if acc.isEmpty then fallbackText else acc

/-- A chunk whose extracted content is truthy: exactly the chunks that append
to the accumulator and trigger a partial broadcast. -/
def chunkAddsText (c : StreamChunk) : Bool :=
  match c.content with
  | some s => !s.isEmpty
  | none => false

/-- The invariant the streaming loop maintains over (accumulator,
broadcasts): all broadcasts carry the turn's id and the partial flag, their
texts form a chain of strict prefix-extensions, each is a prefix of the
accumulator, the broadcast list is empty while the accumulator is, and the
last broadcast carries exactly the current accumulated text. -/
def StreamInv (msgId : Nat) (st : Text × List Broadcast) : Prop :=
  (∀ b ∈ st.2, b.msgId = msgId ∧ b.isPartial = true) ∧
  List.Chain' (fun a b => a.text <+: b.text ∧ a.text.length < b.text.length) st.2 ∧
  (∀ b ∈ st.2, b.text <+: st.1) ∧
  (st.1 = [] → st.2 = []) ∧
  (∀ b, st.2.getLast? = some b → b.text = st.1)

theorem streamInv_contentStep (msgId : Nat) (st : Text × List Broadcast)
    (content : Option Text) (h : StreamInv msgId st) :
    StreamInv msgId (contentStep msgId st content) := by
  obtain ⟨h1, h2, h3, h4, h5⟩ := h
  cases content with
  | none => exact ⟨h1, h2, h3, h4, h5⟩
  | some s =>
    by_cases hs : s.isEmpty
    · simpa only [contentStep, hs, if_true] using ⟨h1, h2, h3, h4, h5⟩
    · have hsne : s ≠ [] := fun e => hs (by simp [e])
      have hpos : 0 < s.length := List.length_pos.mpr hsne
      simp only [contentStep, hs, if_false, Bool.false_eq_true]
      refine ⟨?_, ?_, ?_, ?_, ?_⟩
      · intro b hb
        rcases List.mem_append.mp hb with hb | hb
        · exact h1 b hb
        · simp only [List.mem_singleton] at hb
          subst hb
          exact ⟨rfl, rfl⟩
      · rw [List.chain'_append]
        refine ⟨h2, List.chain'_singleton _, ?_⟩
        intro a ha b hb
        simp only [List.head?_cons, Option.mem_def, Option.some.injEq] at hb
        subst hb
        rw [h5 a ha]
        refine ⟨List.prefix_append _ _, ?_⟩
        rw [List.length_append]
        omega
      · intro b hb
        rcases List.mem_append.mp hb with hb | hb
        · exact (h3 b hb).trans (List.prefix_append _ _)
        · simp only [List.mem_singleton] at hb
          subst hb
          exact List.prefix_rfl
      · intro he
        exact absurd he (by simp [hsne])
      · intro b hb
        rw [List.getLast?_concat] at hb
        cases hb
        rfl

theorem streamInv_outputStep (msgId : Nat) (st : Text × List Broadcast)
    (hm : Bool) (output : Option Text) (h : StreamInv msgId st) :
    StreamInv msgId (outputStep st hm output) := by
  obtain ⟨h1, h2, h3, h4, h5⟩ := h
  cases hm with
  | true => exact ⟨h1, h2, h3, h4, h5⟩
  | false =>
    cases output with
    | none => exact ⟨h1, h2, h3, h4, h5⟩
    | some s =>
      by_cases hc : (!s.isEmpty && st.1.isEmpty) = true
      · have hacc : st.1 = [] := by
          have h' := (Bool.and_eq_true _ _).mp hc
          simpa using h'.2
        have hbs : st.2 = [] := h4 hacc
        simp only [outputStep, hc, if_true, Bool.false_eq_true]
        refine ⟨?_, ?_, ?_, ?_, ?_⟩ <;> simp [hbs]
      · simpa only [outputStep, hc, if_false, Bool.false_eq_true]
          using ⟨h1, h2, h3, h4, h5⟩

theorem streamInv_processChunk (msgId : Nat) (st : Text × List Broadcast)
    (c : StreamChunk) (h : StreamInv msgId st) :
    StreamInv msgId (processChunk msgId st c) :=
  streamInv_outputStep _ _ _ _ (streamInv_contentStep _ _ _ h)

theorem streamInv_foldl (msgId : Nat) (chunks : List StreamChunk) :
    ∀ st : Text × List Broadcast, StreamInv msgId st →
      StreamInv msgId (chunks.foldl (processChunk msgId) st) := by
  induction chunks with
  | nil => exact fun st h => h
  | cons c t ih => exact fun st h => ih _ (streamInv_processChunk _ _ _ h)

theorem streamInv_runStream (msgId : Nat) (chunks : List StreamChunk) :
    StreamInv msgId (runStream msgId chunks) :=
  streamInv_foldl msgId chunks ([], [])
    ⟨by simp, by simp, by simp, fun _ => rfl, by simp⟩

theorem outputStep_snd (st : Text × List Broadcast) (hm : Bool)
    (o : Option Text) : (outputStep st hm o).2 = st.2 := by
  cases hm with
  | true => rfl
  | false =>
    cases o with
    | none => rfl
    | some s =>
      by_cases hc : (!s.isEmpty && st.1.isEmpty) = true <;>
        simp [outputStep, hc]

theorem processChunk_snd_length (msgId : Nat) (st : Text × List Broadcast)
    (c : StreamChunk) :
    ((processChunk msgId st c).2).length
      = st.2.length + (if chunkAddsText c then 1 else 0) := by
  unfold processChunk
  rw [outputStep_snd]
  cases hcc : c.content with
  | none => simp [contentStep, chunkAddsText, hcc]
  | some s =>
    by_cases hs : s.isEmpty <;> simp [contentStep, chunkAddsText, hcc, hs]

theorem runStream_broadcast_count (msgId : Nat) (chunks : List StreamChunk) :
    ∀ st : Text × List Broadcast,
      ((chunks.foldl (processChunk msgId) st).2).length
        = st.2.length + chunks.countP chunkAddsText := by
  induction chunks with
  | nil => intro st; simp
  | cons c t ih =>
    intro st
    rw [List.foldl_cons, ih, processChunk_snd_length, List.countP_cons]
    by_cases hc : chunkAddsText c <;> simp [hc] <;> omega

/-- C1 (amended): one response identifier, generated once for the turn, tags
every partial broadcast; every fragment whose extracted content is non-empty
causes exactly one partial broadcast carrying the full accumulated text (so
the broadcast texts are successive strict prefix-extensions and the last one
equals the accumulated text); when any text accumulated, the committed text
equals the last accumulated text; and the scripted fragment sequence
["Hel", "lo", " world"] yields the partial broadcasts "Hel", "Hello",
"Hello world" with committed text "Hello world". (The correction: a
final-output structure that seeds an empty accumulator adds text without a
partial broadcast, so only content-bearing fragments broadcast.) -/
theorem c1_stream_accumulator_invariants (msgId : Nat)
    (chunks : List StreamChunk) :
    (∀ b ∈ (runStream msgId chunks).2, b.msgId = msgId ∧ b.isPartial = true) ∧
    List.Chain' (fun a b => a.text <+: b.text ∧ a.text.length < b.text.length)
      (runStream msgId chunks).2 ∧
    (∀ b, (runStream msgId chunks).2.getLast? = some b →
      b.text = (runStream msgId chunks).1) ∧
    ((runStream msgId chunks).1 ≠ [] →
      finalContent (runStream msgId chunks).1 = (runStream msgId chunks).1) ∧
    (runStream msgId chunks).2.length = chunks.countP chunkAddsText ∧
    runStream msgId
        [⟨some (strT "Hel"), false, none⟩, ⟨some (strT "lo"), false, none⟩,
         ⟨some (strT " world"), false, none⟩]
      = (strT "Hello world",
         [⟨msgId, strT "Hel", true⟩, ⟨msgId, strT "Hello", true⟩,
          ⟨msgId, strT "Hello world", true⟩]) := by
  obtain ⟨h1, h2, h3, h4, h5⟩ := streamInv_runStream msgId chunks
  refine ⟨h1, h2, h5, ?_, ?_, ?_⟩
  · intro hne
    simp [finalContent, hne]
  · simpa using runStream_broadcast_count msgId chunks ([], [])
  · rfl

/-- C1 counterexample: a chunk carrying only a final-output structure seeds
the accumulator with "Hi" — a fragment that adds text — yet the turn emits no
partial broadcast at all, refuting "every fragment that adds text causes a
partial broadcast". -/
theorem c1_output_seed_counterexample :
    (runStream 0 [⟨none, false, some (strT "Hi")⟩]).1 = strT "Hi" ∧
    (runStream 0 [⟨none, false, some (strT "Hi")⟩]).2 = [] :=
  ⟨rfl, rfl⟩

/-! ### One interaction turn: history persistence and the error path -/

/-- A message persisted in session history by `chat_manager.add_message`
(`is_partial=False` on every persistence call of this route). -/
structure ChatMessage where
  role : String
  content : Text
  isPartial : Bool
deriving DecidableEq, Repr

/-- What the route signals to its caller: normal completion, or the
`HTTPException` re-raised after the error message is persisted. -/
inductive TurnOutcome
  | committed
  | errored
deriving DecidableEq, Repr

/-- One call of `send_message_and_get_response` past session validation: the
user message content, the chunks the executor yields before the stream ends
or raises, and — when it raises — the exception text. -/
structure TurnInput where
  userContent : Text
  chunks : List StreamChunk
  failure : Option Text
deriving DecidableEq, Repr

/-- Line 209: the error reply persisted when streaming raises. -/
def errorMessageContent (e : Text) : Text :=
  strT "An error occurred while generating the response: " ++ e

/-- Lines 99–242: persist the user message (never partial), consume the
stream, then either persist the error reply and signal failure (lines
207–225) or persist the final accumulated-or-fallback text (lines 200–239).
Returns the history written by the turn, the partial broadcasts sent, and
the signalled outcome. -/
def runTurn (msgId : Nat) (inp : TurnInput) :
    List ChatMessage × List Broadcast × TurnOutcome :=
  let streamed := runStream msgId inp.chunks
  match inp.failure with
  | some e =>
    ([⟨"user", inp.userContent, false⟩,
      ⟨"agent", errorMessageContent e, false⟩], streamed.2, .errored)
  | none =>
    ([⟨"user", inp.userContent, false⟩,
      ⟨"agent", finalContent streamed.1, false⟩], streamed.2, .committed)

/-- C7: every failing turn ends with a terminal, non-partial agent message
persisted as the last entry of the session history: the exception aborts the
loop, the error reply is persisted in place of the agent's reply, failure is
signalled, and the history neither lacks an agent reply nor ends on a
partial record. -/
theorem c7_error_turn_terminal (msgId : Nat) (inp : TurnInput) (e : Text)
    (h : inp.failure = some e) :
    ((runTurn msgId inp).1).getLast?
      = some ⟨"agent", errorMessageContent e, false⟩ ∧
    (runTurn msgId inp).2.2 = TurnOutcome.errored ∧
    (∃ m ∈ (runTurn msgId inp).1, m.role = "agent" ∧ m.isPartial = false) := by
  refine ⟨by simp [runTurn, h], by simp [runTurn, h], ?_⟩
  exact ⟨⟨"agent", errorMessageContent e, false⟩, by simp [runTurn, h]⟩

/-- Witness for C7 at a concrete failing turn. -/
theorem c7_error_turn_witness :
    ((runTurn 1 ⟨strT "hi", [], some (strT "boom")⟩).1).getLast?
      = some ⟨"agent", errorMessageContent (strT "boom"), false⟩ ∧
    (runTurn 1 ⟨strT "hi", [], some (strT "boom")⟩).2.2
      = TurnOutcome.errored ∧
    (∃ m ∈ (runTurn 1 ⟨strT "hi", [], some (strT "boom")⟩).1,
      m.role = "agent" ∧ m.isPartial = false) :=
  c7_error_turn_terminal 1 ⟨strT "hi", [], some (strT "boom")⟩ (strT "boom") rfl

/-- A chunk that contributes any text to the accumulator: truthy extracted
content, or (when no truthy `"messages"` list is present) truthy output
content. -/
def chunkYieldsText (c : StreamChunk) : Bool :=
  chunkAddsText c ||
    (!c.hasMessages &&
      match c.output with
      | some s => !s.isEmpty
      | none => false)

theorem processChunk_fst_empty (msgId : Nat) (st : Text × List Broadcast)
    (c : StreamChunk) (ha : st.1 = []) (hc : chunkYieldsText c = false) :
    (processChunk msgId st c).1 = [] := by
  obtain ⟨h1, h2⟩ := Bool.or_eq_false_iff.mp hc
  have hcs : (contentStep msgId st c.content).1 = [] := by
    cases hco : c.content with
    | none => simpa [contentStep] using ha
    | some s =>
      have hse : s.isEmpty = true := by simpa [chunkAddsText, hco] using h1
      simpa [contentStep, hse] using ha
  unfold processChunk
  cases hhm : c.hasMessages with
  | true => simpa [outputStep] using hcs
  | false =>
    have h3 : (match c.output with | some s => !s.isEmpty | none => false)
        = false := by simpa [hhm] using h2
    cases hoo : c.output with
    | none => simpa [outputStep, hoo] using hcs
    | some s =>
      have hse : s.isEmpty = true := by simpa [hoo] using h3
      simpa [outputStep, hoo, hse] using hcs

theorem streamNoText_foldl (msgId : Nat) :
    ∀ (chunks : List StreamChunk) (st : Text × List Broadcast),
      st.1 = [] → (∀ c ∈ chunks, chunkYieldsText c = false) →
      (chunks.foldl (processChunk msgId) st).1 = []
  | [], _, ha, _ => ha
  | c :: t, st, ha, h =>
    streamNoText_foldl msgId t _
      (processChunk_fst_empty msgId st c ha (h c (List.mem_cons_self _ _)))
      (fun d hd => h d (List.mem_cons_of_mem _ hd))

/-- C8: a fragment stream that yields no text at all commits exactly the
fixed fallback phrase, which is not the empty string. -/
theorem c8_empty_stream_fallback (msgId : Nat) (chunks : List StreamChunk)
    (h : ∀ c ∈ chunks, chunkYieldsText c = false) :
    finalContent (runStream msgId chunks).1 = fallbackText ∧
    fallbackText ≠ [] := by
  have ha := streamNoText_foldl msgId chunks ([], []) rfl h
  refine ⟨?_, by decide⟩
  rw [show (runStream msgId chunks).1 = [] from ha]
  rfl

/-- Witness for C8 at a concrete no-text stream (a tool-call chunk and an
empty-content chunk). -/
theorem c8_empty_stream_witness :
    finalContent
        (runStream 2 [⟨none, true, some (strT "ignored")⟩,
          ⟨some (strT ""), false, none⟩]).1 = fallbackText ∧
    fallbackText ≠ [] :=
  c8_empty_stream_fallback 2
    [⟨none, true, some (strT "ignored")⟩, ⟨some (strT ""), false, none⟩]
    (by decide)

/-! ### The agent cache (agent_manager.py, `AgentManager`) -/

/-- Python truthiness of an optional string: present and non-empty. -/
def truthyS : Option String → Bool
  | some s => !s.isEmpty
  | none => false

/-- One cached entry of `_initialized_agents` (lines 191–200): name,
executor handle, gateway client (modelled by an id), tool names, and the
optional platform bot ids (their keys are set only when truthy). -/
structure AgentInfo where
  agentName : String
  executor : Nat
  mcpClient : Option Nat
  tools : List String
  discordBotId : Option String
  telegramBotId : Option String
deriving DecidableEq, Repr

structure AgentManagerState where
  cache : Dict AgentInfo
deriving DecidableEq, Repr

/-- The observable side effect of cache teardown: `mcp_client.close()`. -/
inductive Event
  | closedClient (client : Nat)
deriving DecidableEq, Repr

/-- The `agent_info` dictionary built by `add_initialized_agent`: the
`discord_bot_id` / `telegram_bot_id` keys are added only when truthy. -/
def storedAgentInfo (agentName : String) (executor : Nat)
    (mcpClient : Option Nat) (tools : List String)
    (discordBotId telegramBotId : Option String) : AgentInfo :=
  { agentName, executor, mcpClient, tools,
    discordBotId := if truthyS discordBotId then discordBotId else none,
    telegramBotId := if truthyS telegramBotId then telegramBotId else none }

/-- Lines 188–203 (`add_initialized_agent`): assign the entry into the cache
dictionary (`self._initialized_agents[agent_id] = agent_info`); the only
other effect is a log line, so the event list is empty. -/
def addInitializedAgent (st : AgentManagerState) (agentId : String)
    (agentName : String) (executor : Nat) (mcpClient : Option Nat)
    (tools : List String) (discordBotId telegramBotId : Option String) :
    AgentManagerState × List Event :=
  (⟨dictSet st.cache agentId
      (storedAgentInfo agentName executor mcpClient tools discordBotId
        telegramBotId)⟩,
   [])

/-- Lines 228–239 (`shutdown_specific_agent`): pop the entry with default
`None`; when found and holding a gateway client, await its close —
`closeOk` says whether that close succeeds, and a raising close propagates
(the third component) after the pop already took effect. A missing id only
logs a warning. -/
def shutdownSpecificAgent (closeOk : Nat → Bool) (st : AgentManagerState)
    (agentId : String) : AgentManagerState × List Event × Option Nat :=
  match dictPop st.cache agentId with
  | (some info, rest) =>
    match info.mcpClient with
    | some client =>
      if closeOk client then (⟨rest⟩, [.closedClient client], none)
      else (⟨rest⟩, [], some client)
    | none => (⟨rest⟩, [], none)
  | (none, _) => (st, [], none)

/-- Lines 213–218 (`shutdown_all_agents`): iterate over a snapshot of the
cached ids, awaiting each specific shutdown in turn with no exception
handling, so a raising teardown aborts the loop and propagates. -/
def shutdownAllGo (closeOk : Nat → Bool) :
    AgentManagerState → List String →
      AgentManagerState × List Event × Option Nat
  | st, [] => (st, [], none)
  | st, k :: ks =>
    let r := shutdownSpecificAgent closeOk st k
    match r.2.2 with
    | some client => (r.1, r.2.1, some client)
    | none =>
      let rest := shutdownAllGo closeOk r.1 ks
      (rest.1, r.2.1 ++ rest.2.1, rest.2.2)

def shutdownAllAgents (closeOk : Nat → Bool) (st : AgentManagerState) :
    AgentManagerState × List Event × Option Nat :=
  shutdownAllGo closeOk st (st.cache.map Prod.fst)

/-- A live cached entry used by the cache counterexamples. -/
def infoA : AgentInfo := ⟨"alpha", 1, some 1, [], none, none⟩

/-- A second live cached entry used by the cache counterexamples. -/
def infoB : AgentInfo := ⟨"beta", 2, some 2, [], none, none⟩

/-- C2 (amended): `add_initialized_agent` never rejects a duplicate id and
performs no teardown: it emits no close event, afterwards the cache maps the
id to exactly the new entry (silently replacing any live entry), and every
other id's entry is unchanged. -/
theorem c2_add_overwrites_silently (st : AgentManagerState)
    (agentId agentName : String) (executor : Nat) (mcpClient : Option Nat)
    (tools : List String) (discordBotId telegramBotId : Option String) :
    (addInitializedAgent st agentId agentName executor mcpClient tools
        discordBotId telegramBotId).2 = [] ∧
    dictGet (addInitializedAgent st agentId agentName executor mcpClient
        tools discordBotId telegramBotId).1.cache agentId
      = some (storedAgentInfo agentName executor mcpClient tools
          discordBotId telegramBotId) ∧
    (∀ k, k ≠ agentId →
      dictGet (addInitializedAgent st agentId agentName executor mcpClient
          tools discordBotId telegramBotId).1.cache k
        = dictGet st.cache k) :=
  ⟨rfl, dictGet_dictSet_self _ _ _,
    fun _ hk => dictGet_dictSet_ne _ _ _ _ hk⟩

/-- C2 counterexample: with a live, not-yet-removed entry cached under "a"
(gateway client 1), registering a new agent under "a" is neither rejected
nor preceded by a teardown: no close event is emitted and the old entry is
silently overwritten. -/
theorem c2_overwrite_counterexample :
    dictGet (⟨[("a", infoA)]⟩ : AgentManagerState).cache "a" = some infoA ∧
    ¬ (Event.closedClient 1 ∈
          (addInitializedAgent ⟨[("a", infoA)]⟩ "a" "new" 2 (some 2) []
            none none).2 ∨
        dictGet (addInitializedAgent ⟨[("a", infoA)]⟩ "a" "new" 2 (some 2)
            [] none none).1.cache "a" = some infoA) := by
  decide

/-- C9 (amended): `shutdown_all_agents` is not partial-failure tolerant:
when the first cached entry's gateway-client close raises, that entry has
already been popped (the pop precedes the close) but the exception aborts
the loop, so no later entry receives a removal attempt — the remaining
entries stay cached and no close event is emitted. -/
theorem c9_teardown_failure_aborts (closeOk : Nat → Bool) (k : String)
    (info : AgentInfo) (rest : Dict AgentInfo) (client : Nat)
    (h1 : info.mcpClient = some client) (h2 : closeOk client = false) :
    shutdownAllAgents closeOk ⟨(k, info) :: rest⟩
      = (⟨rest⟩, [], some client) := by
  simp [shutdownAllAgents, shutdownAllGo, shutdownSpecificAgent, dictPop,
    h1, h2]

/-- Witness for C9 at a concrete two-entry cache whose first close fails. -/
theorem c9_teardown_failure_witness :
    shutdownAllAgents (fun c => c != 1) ⟨[("a", infoA), ("b", infoB)]⟩
      = (⟨[("b", infoB)]⟩, [], some 1) :=
  c9_teardown_failure_aborts (fun c => c != 1) "a" infoA [("b", infoB)] 1
    rfl rfl

/-- C9 counterexample: with entries "a" (client 1, close fails) and "b"
(client 2), `shutdown_all_agents` leaves "b" cached and never closes client
2 — so not every entry had a removal attempt. -/
theorem c9_abort_counterexample :
    ¬ (dictGet (shutdownAllAgents (fun c => c != 1)
          ⟨[("a", infoA), ("b", infoB)]⟩).1.cache "b" = none ∨
        Event.closedClient 2 ∈
          (shutdownAllAgents (fun c => c != 1)
            ⟨[("a", infoA), ("b", infoB)]⟩).2.1) := by
  decide

/-- C10: removing an agent id absent from the cache returns normally (no
exception), closes no gateway client, and leaves the cache unchanged. -/
theorem c10_missing_agent_noop (closeOk : Nat → Bool)
    (st : AgentManagerState) (agentId : String)
    (h : dictGet st.cache agentId = none) :
    shutdownSpecificAgent closeOk st agentId = (st, [], none) := by
  unfold shutdownSpecificAgent
  rw [dictPop_of_get_none st.cache agentId h]

/-- Witness for C10: removing the absent id "ghost" from a one-entry cache
is a no-op. -/
theorem c10_missing_agent_witness :
    shutdownSpecificAgent (fun _ => true) ⟨[("a", infoA)]⟩ "ghost"
      = (⟨[("a", infoA)]⟩, [], none) :=
  c10_missing_agent_noop (fun _ => true) ⟨[("a", infoA)]⟩ "ghost" (by decide)

/-! ### Capability discovery retry (lines 398–418) -/

def maxAttempts : Nat := 12

def baseDelay : Nat := 2

/-- The retry loop around `mcp_client.get_tools()`. `fetch n` is attempt
`n`'s outcome: `none` when the call raises, `some l` when it returns `l`.
`fuel` counts the remaining loop iterations (`maxAttempts` at the start), so
the recursion is structural; `last` carries the current value of
`fetched_tools_list`. Returns (fetched list, attempts performed, the delays
slept in order). -/
def retryFetchGo (fetch : Nat → Option (List String)) :
    Nat → Nat → List String → List Nat →
      List String × Nat × List Nat
  | 0, attempt, last, delays => (last, attempt - 1, delays)
  | fuel + 1, attempt, last, delays =>
    match fetch attempt with
    | some l =>
      if l.isEmpty then retryFetchGo fetch fuel (attempt + 1) l delays
      else (l, attempt, delays)
    | none =>
      if attempt < maxAttempts then
        retryFetchGo fetch fuel (attempt + 1) last
          (delays ++ [baseDelay * 2 ^ (attempt - 1)])
      else ([], attempt, delays)

def retryFetch (fetch : Nat → Option (List String)) :
    List String × Nat × List Nat :=
  retryFetchGo fetch maxAttempts 1 [] []

/-- C4: for a gateway whose every fetch attempt fails, discovery performs
exactly 12 attempts, sleeps `2 * 2^(n-1)` time units before attempt `n+1`
(for n = 1..11, doubling from the base delay 2 with no ceiling other than
the attempt budget), and then returns the empty capability list instead of
raising or looping further. -/
theorem c4_retry_budget (fetch : Nat → Option (List String))
    (h : ∀ n, fetch n = none) :
    retryFetch fetch
      = ([], 12, [2, 4, 8, 16, 32, 64, 128, 256, 512, 1024, 2048]) ∧
    (∀ n, 1 ≤ n → n ≤ 11 →
      (retryFetch fetch).2.2.get? (n - 1)
        = some (baseDelay * 2 ^ (n - 1))) := by
  have hf : fetch = fun _ => none := funext h
  subst hf
  refine ⟨rfl, ?_⟩
  intro n h1 h2
  interval_cases n <;> rfl

/-- Witness for C4: the always-failing fetch function. -/
theorem c4_retry_budget_witness :
    retryFetch (fun _ => none)
      = ([], 12, [2, 4, 8, 16, 32, 64, 128, 256, 512, 1024, 2048]) :=
  (c4_retry_budget (fun _ => none) (fun _ => rfl)).1

/-! ### Credential-injecting tool wrappers (lines 98–166) -/

/-- A Python argument value as the wrappers see one: the injected
credentials are strings and one integer. -/
inductive PyVal
  | str (s : String)
  | int (n : Int)
deriving DecidableEq, Repr

/-- `TelegramToolWrapper._arun` (lines 123–130): copy the caller's kwargs
and set the three Telegram credential keys to the wrapper's bound values;
the result is the argument map handed to the wrapped tool's `ainvoke`. -/
def telegramInjectArgs (apiId : Int) (apiHash botToken : String)
    (kwargs : Dict PyVal) : Dict PyVal :=
  dictSet (dictSet (dictSet kwargs "telegram_api_id" (.int apiId))
      "telegram_api_hash" (.str apiHash))
    "telegram_bot_token" (.str botToken)

/-- `DiscordToolWrapper._arun` (lines 157–163): copy the caller's kwargs and
set `bot_id` to the wrapper's bound bot id. -/
def discordInjectArgs (botId : String) (kwargs : Dict PyVal) : Dict PyVal :=
  dictSet kwargs "bot_id" (.str botId)

/-- C5: the argument map passed to the underlying capability equals the
caller's map with the injected credential keys set to the wrapper's bound
values: each injected key reads back the bound value (overwriting any
caller-supplied value for it), and every other key reads back the caller's
value. -/
theorem c5_credential_injection_overrides (apiId : Int)
    (apiHash botToken botId : String) (kwargs kwargs' : Dict PyVal) :
    dictGet (telegramInjectArgs apiId apiHash botToken kwargs)
        "telegram_api_id" = some (.int apiId) ∧
    dictGet (telegramInjectArgs apiId apiHash botToken kwargs)
        "telegram_api_hash" = some (.str apiHash) ∧
    dictGet (telegramInjectArgs apiId apiHash botToken kwargs)
        "telegram_bot_token" = some (.str botToken) ∧
    (∀ k, k ≠ "telegram_api_id" → k ≠ "telegram_api_hash" →
      k ≠ "telegram_bot_token" →
      dictGet (telegramInjectArgs apiId apiHash botToken kwargs) k
        = dictGet kwargs k) ∧
    dictGet (discordInjectArgs botId kwargs') "bot_id"
      = some (.str botId) ∧
    (∀ k, k ≠ "bot_id" →
      dictGet (discordInjectArgs botId kwargs') k = dictGet kwargs' k) := by
  refine ⟨?_, ?_, ?_, ?_, ?_, ?_⟩
  · rw [telegramInjectArgs, dictGet_dictSet_ne _ _ _ _ (by decide),
      dictGet_dictSet_ne _ _ _ _ (by decide), dictGet_dictSet_self]
  · rw [telegramInjectArgs, dictGet_dictSet_ne _ _ _ _ (by decide),
      dictGet_dictSet_self]
  · rw [telegramInjectArgs, dictGet_dictSet_self]
  · intro k hk1 hk2 hk3
    rw [telegramInjectArgs, dictGet_dictSet_ne _ _ _ _ hk3,
      dictGet_dictSet_ne _ _ _ _ hk2, dictGet_dictSet_ne _ _ _ _ hk1]
  · exact dictGet_dictSet_self _ _ _
  · exact fun k hk => dictGet_dictSet_ne _ _ _ _ hk

/-- Witness for C5 at a concrete caller map that tries to spoof every
injected key. -/
theorem c5_credential_injection_witness :
    dictGet (telegramInjectArgs 7 "hash" "tok"
        [("telegram_api_id", .int 99), ("x", .str "keep")])
      "telegram_api_id" = some (.int 7) ∧
    dictGet (telegramInjectArgs 7 "hash" "tok"
        [("telegram_api_id", .int 99), ("x", .str "keep")])
      "x" = some (.str "keep") := by
  have h := c5_credential_injection_overrides 7 "hash" "tok" "b"
    [("telegram_api_id", .int 99), ("x", .str "keep")] []
  exact ⟨h.1, by
    have := h.2.2.2.1 "x" (by decide) (by decide) (by decide)
    rw [this]
    rfl⟩

/-! ### Platform registration and allow-list filtering
(`create_dynamic_agent_instance`, lines 420–498) -/

/-- The secret material the filtering step reads (the Telegram api id is a
raw configuration value whose integer parse may fail, which the source
catches as `ValueError`/`TypeError`). -/
structure AgentSecretsM where
  discordBotToken : Option String
  telegramBotToken : Option String
  telegramApiId : Option String
  telegramApiHash : Option String
deriving DecidableEq, Repr

/-- Line 367: `discord_secrets_provided = bool(discord_token)`. -/
def discordSecretsProvided (s : AgentSecretsM) : Bool :=
  truthyS s.discordBotToken

/-- Lines 381–385: token truthy, api id present (`is not None`), api hash
truthy. -/
def telegramSecretsProvided (s : AgentSecretsM) : Bool :=
  truthyS s.telegramBotToken && s.telegramApiId.isSome &&
    truthyS s.telegramApiHash

/-- Python `int()` on a digit string (`none` models the `ValueError` the
source catches at lines 468–471). -/
def digitsToNat? (cs : List Char) : Option Nat :=
  if cs.isEmpty then none
  else
    cs.foldl
      (fun acc c =>
        match acc with
        | none => none
        | some n => if c.isDigit then some (n * 10 + (c.toNat - 48)) else none)
      (some 0)

def pyIntOfString? (s : String) : Option Int :=
  let cs := ((s.data.dropWhile (fun c => c.isWhitespace)).reverse.dropWhile
    (fun c => c.isWhitespace)).reverse
  match cs with
  | '-' :: rest => (digitsToNat? rest).map (fun n => -(n : Int))
  | '+' :: rest => (digitsToNat? rest).map (fun n => (n : Int))
  | _ => (digitsToNat? cs).map (fun n => (n : Int))

/-- Line 468: `int(telegram_api_id) if telegram_api_id is not None else 0`;
`none` is the raised conversion error. -/
def telegramApiIdInt? (s : AgentSecretsM) : Option Int :=
  match s.telegramApiId with
  | some v => pyIntOfString? v
  | none => some 0

/-- The outcomes of the two platform registration calls: `none` models the
`register_*_bot` invocation raising, `some id` a returned bot id. -/
structure RegistrationEnv where
  registerDiscord : Option String
  registerTelegram : Option String
deriving DecidableEq, Repr

/-- Lines 425–435: the Discord bot id after step 1 — the registration call
is made only when the secrets are provided and the register capability was
discovered, and a raising call leaves the id `None`. -/
def resolvedDiscordBotId (s : AgentSecretsM) (reg : RegistrationEnv)
    (discoveredNames : List String) : Option String :=
  if discordSecretsProvided s = true ∧
      "register_discord_bot" ∈ discoveredNames then
    reg.registerDiscord
  else none

/-- Lines 437–451: the Telegram bot id after step 1, likewise. -/
def resolvedTelegramBotId (s : AgentSecretsM) (reg : RegistrationEnv)
    (discoveredNames : List String) : Option String :=
  if telegramSecretsProvided s = true ∧
      "register_telegram_bot" ∈ discoveredNames then
    reg.registerTelegram
  else none

/-- Line 463. -/
def telegramToolNames : List String :=
  ["send_message_telegram", "get_chat_history_telegram",
   "get_bot_id_telegram"]

/-- Line 464. -/
def discordToolNames : List String :=
  ["send_message_discord", "get_channel_messages_discord",
   "get_bot_id_discord"]

/-- A member of `agent_tools_final`: a plain capability or one of the two
credential-wrapped variants (wrappers preserve the wrapped name). -/
inductive FinalTool
  | plain (n : String)
  | telegramWrapped (n : String) (apiId : Int) (apiHash botToken : String)
  | discordWrapped (n : String) (botId : String)
deriving DecidableEq, Repr

def FinalTool.toolName : FinalTool → String
  | .plain n => n
  | .telegramWrapped n _ _ _ => n
  | .discordWrapped n _ => n

/-- Lines 456–493, one iteration of the allow-list loop: skip names absent
from discovery; wrap Telegram platform tools when the Telegram secrets are
provided (skipping the tool entirely when the api id fails integer
conversion); wrap Discord platform tools when a truthy Discord bot id was
obtained; append every other allowed-and-discovered tool unwrapped. -/
def resolveAllowedTool (secrets : AgentSecretsM) (discordBotId : Option String)
    (discoveredNames : List String) (n : String) : Option FinalTool :=
  if n ∈ discoveredNames then
    if n ∈ telegramToolNames ∧ telegramSecretsProvided secrets = true then
      match telegramApiIdInt? secrets with
      | some apiId =>
        some (.telegramWrapped n apiId (secrets.telegramApiHash.getD "")
          (secrets.telegramBotToken.getD ""))
      | none => none
    else if n ∈ discordToolNames ∧ truthyS discordBotId = true then
      some (.discordWrapped n (discordBotId.getD ""))
    else some (.plain n)
  else none

/-- The result of steps 1–2 of `create_dynamic_agent_instance` after a
discovery returning `discoveredNames`: both bot ids and
`agent_tools_final`. The allow-list is iterated as a set (deduplicated). -/
structure AssembledTools where
  discordBotId : Option String
  telegramBotId : Option String
  tools : List FinalTool
deriving DecidableEq, Repr

def assembleTools (secrets : AgentSecretsM) (reg : RegistrationEnv)
    (allowedToolNames : List String) (discoveredNames : List String) :
    AssembledTools :=
  let dId := resolvedDiscordBotId secrets reg discoveredNames
  let tId := resolvedTelegramBotId secrets reg discoveredNames
  { discordBotId := dId, telegramBotId := tId,
    tools := allowedToolNames.dedup.foldl
      (fun acc n =>
        match resolveAllowedTool secrets dId discoveredNames n with
        | some t => acc ++ [t]
        | none => acc) [] }

theorem assembleLoop_eq_filterMap (f : String → Option FinalTool)
    (names : List String) :
    ∀ acc : List FinalTool,
      names.foldl
          (fun acc n => match f n with | some t => acc ++ [t] | none => acc)
          acc
        = acc ++ names.filterMap f := by
  induction names with
  | nil => intro acc; simp
  | cons n t ih =>
    intro acc
    rw [List.foldl_cons]
    cases hf : f n with
    | none =>
      simp only [hf]
      rw [ih]
      simp [List.filterMap_cons, hf]
    | some x =>
      simp only [hf]
      rw [ih]
      simp [List.filterMap_cons, hf]

theorem assembleTools_tools_eq (secrets : AgentSecretsM)
    (reg : RegistrationEnv) (allowed discovered : List String) :
    (assembleTools secrets reg allowed discovered).tools
      = allowed.dedup.filterMap
          (resolveAllowedTool secrets
            (resolvedDiscordBotId secrets reg discovered) discovered) := by
  simp [assembleTools, assembleLoop_eq_filterMap]

theorem resolveAllowedTool_name (secrets : AgentSecretsM)
    (dId : Option String) (discovered : List String) (n : String)
    (t : FinalTool)
    (h : resolveAllowedTool secrets dId discovered n = some t) :
    t.toolName = n := by
  unfold resolveAllowedTool at h
  split at h
  · split at h
    · cases hv : telegramApiIdInt? secrets with
      | none => rw [hv] at h; exact absurd h (by simp)
      | some apiId =>
        rw [hv] at h
        simp only [Option.some.injEq] at h
        subst h
        rfl
    · split at h
      · simp only [Option.some.injEq] at h
        subst h
        rfl
      · simp only [Option.some.injEq] at h
        subst h
        rfl
  · exact absurd h (by simp)

theorem resolveAllowedTool_isSome_iff (secrets : AgentSecretsM)
    (dId : Option String) (discovered : List String) (n : String) :
    (resolveAllowedTool secrets dId discovered n).isSome = true ↔
      (n ∈ discovered ∧
        ¬(n ∈ telegramToolNames ∧ telegramSecretsProvided secrets = true ∧
          telegramApiIdInt? secrets = none)) := by
  unfold resolveAllowedTool
  by_cases h1 : n ∈ discovered
  · rw [if_pos h1]
    by_cases h2 : n ∈ telegramToolNames ∧ telegramSecretsProvided secrets = true
    · rw [if_pos h2]
      cases hv : telegramApiIdInt? secrets with
      | none => simp [h1, h2.1, h2.2, hv]
      | some apiId => simp [h1, h2.1, h2.2, hv]
    · rw [if_neg h2]
      by_cases h3 : n ∈ discordToolNames ∧ truthyS dId = true
      · rw [if_pos h3]
        simp only [Option.isSome_some, true_iff]
        exact ⟨h1, fun hc => h2 ⟨hc.1, hc.2.1⟩⟩
      · rw [if_neg h3]
        simp only [Option.isSome_some, true_iff]
        exact ⟨h1, fun hc => h2 ⟨hc.1, hc.2.1⟩⟩
  · rw [if_neg h1]
    simp [h1]

theorem mem_map_toolName_filterMap (f : String → Option FinalTool)
    (hname : ∀ m t, f m = some t → t.toolName = m) (l : List String)
    (n : String) :
    (n ∈ (l.filterMap f).map FinalTool.toolName) ↔
      (n ∈ l ∧ (f n).isSome = true) := by
  simp only [List.mem_map, List.mem_filterMap]
  constructor
  · rintro ⟨t, ⟨m, hm, hf⟩, hn⟩
    have hmn : m = n := by rw [← hname m t hf, hn]
    subst hmn
    exact ⟨hm, by rw [hf]; rfl⟩
  · rintro ⟨hm, hs⟩
    obtain ⟨t, hf⟩ := Option.isSome_iff_exists.mp hs
    exact ⟨t, ⟨n, hm, hf⟩, hname n t hf⟩

/-- C6 (amended): the final capability set, as a set of names, is the
intersection of the allow-list with the discovered names — independent of
discovery order, with names absent from discovery skipped and an empty
allow-list yielding zero tools — except that a Telegram platform tool is
additionally skipped when the Telegram secrets are provided but the
configured api id fails integer conversion. -/
theorem c6_allowlist_filtering (secrets : AgentSecretsM)
    (reg : RegistrationEnv) (allowed discovered : List String) (n : String) :
    (n ∈ ((assembleTools secrets reg allowed discovered).tools.map
        FinalTool.toolName)) ↔
      (n ∈ allowed ∧ n ∈ discovered ∧
        ¬(n ∈ telegramToolNames ∧ telegramSecretsProvided secrets = true ∧
          telegramApiIdInt? secrets = none)) := by
  rw [assembleTools_tools_eq,
    mem_map_toolName_filterMap _
      (fun m t h => resolveAllowedTool_name secrets _ discovered m t h) _ n,
    resolveAllowedTool_isSome_iff, List.mem_dedup]

/-- C6 counterexample: an agent whose allow-list and discovery are exactly
{send_message_telegram}, with Telegram secrets whose api id "abc" fails
integer conversion, ends with an empty capability set — not the
intersection. -/
theorem c6_intersection_counterexample :
    "send_message_telegram" ∈ (["send_message_telegram"] : List String) ∧
    ¬ ("send_message_telegram" ∈
        ((assembleTools ⟨none, some "t", some "abc", some "h"⟩ ⟨none, none⟩
            ["send_message_telegram"] ["send_message_telegram"]).tools.map
          FinalTool.toolName)) := by
  decide

/-- Witness for C6 at a concrete two-tool discovery: the allow-list {A, B}
against discovered {A, B, C} yields exactly {A, B}. -/
theorem c6_allowlist_filtering_witness :
    ("toolA" ∈ ((assembleTools ⟨none, none, none, none⟩ ⟨none, none⟩
        ["toolA", "toolB"] ["toolA", "toolB", "toolC"]).tools.map
      FinalTool.toolName)) ∧
    ¬ ("toolC" ∈ ((assembleTools ⟨none, none, none, none⟩ ⟨none, none⟩
        ["toolA", "toolB"] ["toolA", "toolB", "toolC"]).tools.map
      FinalTool.toolName)) :=
  ⟨(c6_allowlist_filtering ⟨none, none, none, none⟩ ⟨none, none⟩
      ["toolA", "toolB"] ["toolA", "toolB", "toolC"] "toolA").mpr
    (by decide),
   fun hc => by
    have := (c6_allowlist_filtering ⟨none, none, none, none⟩ ⟨none, none⟩
      ["toolA", "toolB"] ["toolA", "toolB", "toolC"] "toolC").mp hc
    revert this
    decide⟩

theorem resolvedDiscordBotId_of_fail (secrets : AgentSecretsM)
    (reg : RegistrationEnv) (discovered : List String)
    (h : reg.registerDiscord = none) :
    resolvedDiscordBotId secrets reg discovered = none := by
  unfold resolvedDiscordBotId
  split <;> simp [h]

/-- C3 (amended): a failing platform registration is non-fatal — assembly
continues with the bot id left `None` — but the platform's capabilities are
not excluded: an allow-listed, discovered Discord tool is included
unwrapped (wrapping requires a truthy bot id), and an allow-listed,
discovered Telegram tool is still included wrapped whenever the Telegram
secrets are provided and parseable, independent of the registration
outcome. -/
theorem c3_registration_failure_nonfatal (secrets : AgentSecretsM)
    (reg : RegistrationEnv) (allowed discovered : List String) (n : String) :
    (reg.registerDiscord = none → n ∈ discordToolNames → n ∈ allowed →
      n ∈ discovered →
      FinalTool.plain n ∈ (assembleTools secrets reg allowed discovered).tools) ∧
    (∀ i : Int, n ∈ telegramToolNames → n ∈ allowed → n ∈ discovered →
      telegramSecretsProvided secrets = true →
      telegramApiIdInt? secrets = some i →
      FinalTool.telegramWrapped n i (secrets.telegramApiHash.getD "")
          (secrets.telegramBotToken.getD "")
        ∈ (assembleTools secrets reg allowed discovered).tools) := by
  constructor
  · intro hfail hn h1 h2
    have hnt : n ∉ telegramToolNames := by
      simp only [discordToolNames, List.mem_cons, List.mem_singleton,
        List.not_mem_nil, or_false] at hn
      rcases hn with h | h | h <;> subst h <;> decide
    have hres : resolveAllowedTool secrets
        (resolvedDiscordBotId secrets reg discovered) discovered n
          = some (.plain n) := by
      rw [resolvedDiscordBotId_of_fail secrets reg discovered hfail]
      unfold resolveAllowedTool
      rw [if_pos h2, if_neg (fun hc => hnt hc.1),
        if_neg (fun hc => by simpa [truthyS] using hc.2)]
    rw [assembleTools_tools_eq]
    exact List.mem_filterMap.mpr ⟨n, List.mem_dedup.mpr h1, hres⟩
  · intro i hn h1 h2 hp hv
    have hres : resolveAllowedTool secrets
        (resolvedDiscordBotId secrets reg discovered) discovered n
          = some (.telegramWrapped n i (secrets.telegramApiHash.getD "")
              (secrets.telegramBotToken.getD "")) := by
      unfold resolveAllowedTool
      rw [if_pos h2, if_pos ⟨hn, hp⟩]
      simp only [hv]
    rw [assembleTools_tools_eq]
    exact List.mem_filterMap.mpr ⟨n, List.mem_dedup.mpr h1, hres⟩

/-- Witness for C3: with Discord secrets provided, the register capability
discovered, and registration raising, the allow-listed Discord tool is in
the assembled set, unwrapped. -/
theorem c3_registration_failure_witness :
    FinalTool.plain "send_message_discord" ∈
      (assembleTools ⟨some "dtok", none, none, none⟩ ⟨none, none⟩
        ["send_message_discord"]
        ["register_discord_bot", "send_message_discord"]).tools :=
  (c3_registration_failure_nonfatal ⟨some "dtok", none, none, none⟩
      ⟨none, none⟩ ["send_message_discord"]
      ["register_discord_bot", "send_message_discord"]
      "send_message_discord").1
    rfl (by decide) (by decide) (by decide)

/-- C3 counterexample: with Discord secrets provided and the register
capability discovered, a raising registration leaves the bot id `None`, yet
`send_message_discord` is still in the final capability set — the
platform's capabilities are not excluded. -/
theorem c3_registration_failure_counterexample :
    (assembleTools ⟨some "dtok", none, none, none⟩ ⟨none, none⟩
        ["send_message_discord"]
        ["register_discord_bot", "send_message_discord"]).discordBotId
      = none ∧
    "send_message_discord" ∈
      ((assembleTools ⟨some "dtok", none, none, none⟩ ⟨none, none⟩
          ["send_message_discord"]
          ["register_discord_bot", "send_message_discord"]).tools.map
        FinalTool.toolName) := by
  decide

end ViralAI
